import Mathlib

/-!
# Verification of the infrastructure-manager reconciliation core

Shallow embedding of the credential-rotation reconciler
(`internal/controller/gardener_cluster_controller.go`), the create-shoot
FSM step (`internal/controller/runtime/fsm/runtime_fsm_create_shoot.go`)
and the auditlog extension upsert
(`pkg/gardener/shoot/extender/auditlogs/set_extension.go`).

Modelling choices:
* Go maps (`map[string]string`, `map[string][]byte`) are association
  lists; byte slices are `String`.
* `time.Time` and `time.Duration` are integers in a fixed unit
  (seconds).  The source decides rotation with
  `alreadyValidFor.Minutes() >= 0.95 * rotationPeriod.Minutes()`;
  `Minutes()` divides both durations by the same positive constant, so
  over exact arithmetic the test equals
  `95 * rotationPeriod <= 100 * alreadyValidFor`, which is how the
  embedding computes it.  The claim theorems state the threshold in the
  spec's `0.95 ×` rational form and bridge the two.
* Every external call (k8s client List/Get/Create/Update/Delete, the
  kubeconfig fetch, the seed lookup, the converter) is an input recorded
  in an environment structure, and the store calls the code issues are
  returned as an explicit mutation trace.
* Names follow the source where possible; the `...Annotation` constants
  of the source are shortened to `...Ann`.
-/

set_option autoImplicit false

namespace IM

/-- Association list standing for a Go string-keyed map.  Go maps have
unique keys; lookup returns the first binding and delete removes every
binding of the key, so the operations agree with Go maps on unique-key
lists (and stay well defined on all lists). -/
abbrev AList := List (String × String)

/-- Map read `v, found := m[k]`: `none` when the key is absent. -/
def lookupA : AList → String → Option String
  | [], _ => none
  | (k', v) :: rest, k => if k' = k then some v else lookupA rest k

/-- Map write `m[k] = v`: replace the binding in place or append. -/
def insertA : AList → String → String → AList
  | [], k, v => [(k, v)]
  | (k', v') :: rest, k, v =>
      if k' = k then (k, v) :: rest else (k', v') :: insertA rest k v

/-- Go `delete(m, k)`. -/
def eraseA : AList → String → AList
  | [], _ => []
  | (k', v') :: rest, k =>
      if k' = k then eraseA rest k else (k', v') :: eraseA rest k

@[simp] theorem lookupA_nil (k : String) : lookupA [] k = none := rfl

@[simp] theorem lookupA_cons (k' v k : String) (rest : AList) :
    lookupA ((k', v) :: rest) k =
      if k' = k then some v else lookupA rest k := rfl

theorem lookupA_eraseA (m : AList) (k : String) :
    lookupA (eraseA m k) k = none := by
  induction m with
  | nil => rfl
  | cons hd tl ih =>
      obtain ⟨k', v'⟩ := hd
      by_cases h : k' = k
      · simpa [eraseA, h] using ih
      · simpa [eraseA, lookupA, h] using ih

theorem lookupA_eraseA_ne (m : AList) (k k' : String) (h : k' ≠ k) :
    lookupA (eraseA m k) k' = lookupA m k' := by
  induction m with
  | nil => rfl
  | cons hd tl ih =>
      obtain ⟨k₀, v₀⟩ := hd
      by_cases hk : k₀ = k
      · subst hk
        have hkk' : ¬ k₀ = k' := fun hh => h hh.symm
        simpa [eraseA, lookupA, hkk'] using ih
      · by_cases hk2 : k₀ = k'
        · simp [eraseA, lookupA, hk, hk2, h]
        · simpa [eraseA, lookupA, hk, hk2] using ih

/-! ## Constants of `gardener_cluster_controller.go` -/

/-- `lastKubeconfigSyncAnnotation = "operator.kyma-project.io/last-sync"`. -/
def lastKubeconfigSyncAnn : String := "operator.kyma-project.io/last-sync"

/-- `forceKubeconfigRotationAnnotation =
"operator.kyma-project.io/force-kubeconfig-rotation"`. -/
def forceKubeconfigRotationAnn : String :=
  "operator.kyma-project.io/force-kubeconfig-rotation"

/-- `clusterCRNameLabel = "operator.kyma-project.io/cluster-name"`. -/
def clusterCRNameLabel : String := "operator.kyma-project.io/cluster-name"

/-- Label key used in `getSecret`'s selector. -/
def shootNameLabel : String := "kyma-project.io/shoot-name"

/-- Label key/value set by `newSecret`. -/
def managedByLabel : String := "operator.kyma-project.io/managed-by"

def managedByValue : String := "infrastructure-manager"

/-! ## Data model -/

/-- A `corev1.Secret` restricted to the fields this controller touches.
`annotations` is optional because the Go map can be `nil` and the code
branches on that. -/
structure Secret where
  name : String
  ns : String
  labels : AList
  annotations : Option AList
  data : AList
  stringData : AList
deriving Repr, DecidableEq

/-- `cluster.Spec.Kubeconfig.Secret`: target coordinates of the secret. -/
structure KubeconfigSecretRef where
  name : String
  ns : String
  key : String
deriving Repr, DecidableEq

/-- Condition reasons used by the controller (`imv1.ConditionReason...`). -/
inductive CondReason
  | FailedToGetSecret
  | FailedToGetKubeconfig
  | FailedToDeleteSecret
  | FailedToCreateSecret
  | FailedToUpdateSecret
  | KubeconfigSecretCreated
  | KubeconfigSecretRotated
deriving Repr, DecidableEq

inductive CondStatus
  | statusTrue
  | statusFalse
  | statusUnknown
deriving Repr, DecidableEq

/-- A status condition `{type, status, reason}` (message/time dropped:
no claim mentions them). -/
structure Condition where
  condType : String
  status : CondStatus
  reason : CondReason
deriving Repr, DecidableEq

/-- `imv1.ConditionTypeKubeconfigManagement`. -/
def conditionTypeKubeconfigManagement : String := "KubeconfigManagement"

/-- The `imv1.GardenerCluster` access object, restricted to the fields
the controller reads or writes. -/
structure GardenerCluster where
  name : String
  ns : String
  labels : AList
  annotations : Option AList
  shootName : String
  kubeconfigSecret : KubeconfigSecretRef
  conditions : List Condition
deriving Repr, DecidableEq

/-- Modelled from the spec: conditions are "upserted by `type`" — the
api package holding `UpdateConditionForErrorState` /
`UpdateConditionForReadyState` is not under `src/`. -/
def upsertCondition (cs : List Condition) (c : Condition) : List Condition :=
  match cs with
  | [] => [c]
  | c₀ :: rest =>
      if c₀.condType = c.condType then c :: rest else c₀ :: upsertCondition rest c

/-- Modelled from the spec: `UpdateConditionForErrorState` upserts a
`False` condition of the given type/reason on the cluster's status. -/
def UpdateConditionForErrorState (cluster : GardenerCluster)
    (reason : CondReason) : GardenerCluster :=
  { cluster with
    conditions := upsertCondition cluster.conditions
      ⟨conditionTypeKubeconfigManagement, .statusFalse, reason⟩ }

/-- Modelled from the spec: `UpdateConditionForReadyState` upserts a
`True` condition of the given type/reason on the cluster's status. -/
def UpdateConditionForReadyState (cluster : GardenerCluster)
    (reason : CondReason) : GardenerCluster :=
  { cluster with
    conditions := upsertCondition cluster.conditions
      ⟨conditionTypeKubeconfigManagement, .statusTrue, reason⟩ }

/-! ## Time and RFC3339 parsing

The writer side of the controller stores
`lastSyncTime.UTC().Format(time.RFC3339)`, which is always the
canonical form `YYYY-MM-DDTHH:MM:SSZ`; the reader parses with
`time.Parse(time.RFC3339, s)`.  The model implements the canonical
form: a strict pattern check, digit extraction, calendar validation,
and conversion to seconds on the proleptic Gregorian timeline.  A
string that does not match parses to `none`, exactly like a
`time.Parse` error in the source. -/

def isLeapYear (y : Nat) : Bool :=
  y % 4 == 0 && (y % 100 != 0 || y % 400 == 0)

def daysInMonth (y m : Nat) : Nat :=
  match m with
  | 1 => 31
  | 2 => if isLeapYear y then 29 else 28
  | 3 => 31
  | 4 => 30
  | 5 => 31
  | 6 => 30
  | 7 => 31
  | 8 => 31
  | 9 => 30
  | 10 => 31
  | 11 => 30
  | 12 => 31
  | _ => 0

/-- Days in year `y` before the first day of month `m`. -/
def daysBeforeMonth (y m : Nat) : Nat :=
  (List.range (m - 1)).foldl (fun acc i => acc + daysInMonth y (i + 1)) 0

/-- Complete leap years among `0, 1, ..., y - 1` (year 0 is a leap
year in the proleptic Gregorian calendar). -/
def leapYearsBefore (y : Nat) : Nat :=
  if y = 0 then 0 else (y - 1) / 4 - (y - 1) / 100 + (y - 1) / 400 + 1

/-- Day index of `y-m-d` counted from `0000-01-01`. -/
def epochDays (y m d : Nat) : Nat :=
  365 * y + leapYearsBefore y + daysBeforeMonth y m + (d - 1)

/-- Second index of `y-m-d h:mi:s` counted from `0000-01-01T00:00:00Z`. -/
def epochSeconds (y m d h mi s : Nat) : Nat :=
  epochDays y m d * 86400 + h * 3600 + mi * 60 + s

def digitVal (c : Char) : Option Nat :=
  if c.isDigit then some (c.toNat - 48) else none

def parse2 (a b : Char) : Option Nat := do
  let x ← digitVal a
  let y ← digitVal b
  pure (10 * x + y)

def parse4 (a b c d : Char) : Option Nat := do
  let x ← parse2 a b
  let y ← parse2 c d
  pure (100 * x + y)

/-- Model of `time.Parse(time.RFC3339, str)` restricted to the
canonical UTC form the controller itself writes; returns the parsed
instant in seconds, or `none` on any format or range violation. -/
def parseRFC3339 (str : String) : Option Int :=
  match str.data with
  | [y1, y2, y3, y4, '-', a1, a2, '-', b1, b2, 'T',
     h1, h2, ':', m1, m2, ':', s1, s2, 'Z'] => do
      let y ← parse4 y1 y2 y3 y4
      let mo ← parse2 a1 a2
      let d ← parse2 b1 b2
      let h ← parse2 h1 h2
      let mi ← parse2 m1 m2
      let s ← parse2 s1 s2
      if 1 ≤ mo ∧ mo ≤ 12 ∧ 1 ≤ d ∧ d ≤ daysInMonth y mo ∧
          h ≤ 23 ∧ mi ≤ 59 ∧ s ≤ 59 then
        some (Int.ofNat (epochSeconds y mo d h mi s))
      else
        none
  | _ => none

/-! ## Rotation decision (`secretRotationForced`,
`secretRotationTimePassed`, `secretNeedsToBeRotated`) -/

/-- `secretRotationForced`: true iff the force-rotation key is present
in the cluster's annotations (a `nil` map reads as absent). -/
def secretRotationForced (cluster : GardenerCluster) : Bool :=
  match cluster.annotations with
  | none => false
  | some anns => (lookupA anns forceKubeconfigRotationAnn).isSome

/-- `secretRotationTimePassed`: true when the secret is absent, the
last-sync key is absent, the recorded value does not parse, or
`alreadyValidFor.Minutes() >= 0.95 * rotationPeriod.Minutes()` — the
latter written as the equivalent exact integer comparison
`95 * rotationPeriod ≤ 100 * (now - lastSyncTime)` (the source's
`rotationPeriodRat = 0.95`). -/
def secretRotationTimePassed (rotationPeriod now : Int)
    (secret : Option Secret) : Bool :=
  match secret with
  | none => true
  | some s =>
    match lookupA (s.annotations.getD []) lastKubeconfigSyncAnn with
    | none => true
    | some lastSyncTimeString =>
      match parseRFC3339 lastSyncTimeString with
      | none => true
      | some lastSyncTime =>
          decide (95 * rotationPeriod ≤ 100 * (now - lastSyncTime))

/-- `secretNeedsToBeRotated`: time passed OR rotation forced. -/
def secretNeedsToBeRotated (cluster : GardenerCluster)
    (secret : Option Secret) (rotationPeriod now : Int) : Bool :=
  secretRotationTimePassed rotationPeriod now secret ||
    secretRotationForced cluster

/-! ## Secret lookup and the secret-shaped transforms -/

/-- Result of `getSecret`: the label-selector list can fail, match
nothing (the source wraps this as a k8s not-found error), match more
than one secret (`unexpected numer of secrets found for shoot`), or
yield exactly one secret. -/
inductive GetSecretResult
  | listError
  | notFound
  | ambiguous
  | found (s : Secret)
deriving Repr, DecidableEq

/-- `getSecret`: list the secrets labelled with the shoot name and
require at most one match. -/
def getSecret (listOk : Bool) (matching : List Secret) : GetSecretResult :=
  if listOk then
    match matching with
    | [] => .notFound
    | [s] => .found s
    | _ :: _ :: _ => .ambiguous
  else
    .listError

/-- The secret built by `newSecret`: target coordinates from the
cluster spec, the cluster's labels plus the managed-by and
cluster-name labels, a fresh last-sync entry, and the kubeconfig under
the configured key (via `StringData`). -/
def newSecret (cluster : GardenerCluster) (kubeconfig lastSyncStr : String) :
    Secret :=
  { name := cluster.kubeconfigSecret.name
    ns := cluster.kubeconfigSecret.ns
    labels := insertA (insertA cluster.labels managedByLabel managedByValue)
      clusterCRNameLabel cluster.name
    annotations := some [(lastKubeconfigSyncAnn, lastSyncStr)]
    data := []
    stringData := [(cluster.kubeconfigSecret.key, kubeconfig)] }

/-- The secret as mutated by `removeKubeconfig` before its `Update`
call: the kubeconfig entry is deleted from `Data` and, when the
annotations map is non-nil, the last-sync entry is deleted from it;
every other field is untouched. -/
def stripKubeconfig (key : String) (s : Secret) : Secret :=
  { s with
    data := eraseA s.data key
    annotations := s.annotations.map (fun a => eraseA a lastKubeconfigSyncAnn) }

/-- The secret as mutated by `updateExistingSecret` before its `Update`
call: the kubeconfig entry is written under the configured key (a nil
`Data` map is allocated first) and the last-sync entry is set to the
formatted sync time (a nil annotations map is allocated first). -/
def refreshedSecret (key kubeconfig lastSyncStr : String) (s : Secret) :
    Secret :=
  { s with
    data := insertA s.data key kubeconfig
    annotations :=
      some (insertA (s.annotations.getD []) lastKubeconfigSyncAnn lastSyncStr) }

/-! ## `handleKubeconfig` -/

/-- `kubeconfigStatus` of the source (`ksZero | ksCreated | ksModified
| ksRotated`). -/
inductive KubeconfigStatus
  | ksZero
  | ksCreated
  | ksModified
  | ksRotated
deriving Repr, DecidableEq

/-- A store call issued against the secret store. -/
inductive SecretMutation
  | create (s : Secret)
  | update (s : Secret)
  | delete (s : Secret)
deriving Repr, DecidableEq

/-- Which failure `handleKubeconfig` returned, when it returned one. -/
inductive HandleError
  | listFailed
  | ambiguousSecrets
  | fetchFailed
  | removeFailed
  | updateFailed
  | createFailed
deriving Repr, DecidableEq

/-- External-world inputs of one reconciliation invocation, plus the
success/failure of each store call the invocation may issue. -/
structure Env where
  /-- Secrets matched by the `shootNameLabel` selector in `getSecret`. -/
  shootSecrets : List Secret
  /-- Whether that `List` call itself succeeds. -/
  listOk : Bool
  /-- `KubeconfigProvider.Fetch` result; `none` is a fetch error. -/
  fetch : Option String
  /-- Whether a fetch error would satisfy `k8serrors.IsNotFound`. -/
  fetchErrIsNotFound : Bool
  /-- Success of secret `Update` calls. -/
  updateOk : Bool
  /-- Success of secret `Create` calls. -/
  createOk : Bool
  /-- Success of secret `Delete` calls. -/
  deleteOk : Bool
  /-- Secrets matched by the `clusterCRNameLabel` selector in
  `deleteKubeconfigSecret`. -/
  crSecrets : List Secret
  /-- `Get` of the cluster inside `removeForceRotationAnnotation`
  (`none` is a get error). -/
  refetch : Option GardenerCluster
  /-- Success of the cluster `Update` call that persists the marker
  removal. -/
  clusterUpdateOk : Bool
  /-- `time.Now()` in seconds. -/
  now : Int
  /-- `lastSyncTime.UTC().Format(time.RFC3339)` for the same instant. -/
  lastSyncStr : String
deriving Repr

/-- What `handleKubeconfig` produced: the returned status, the cluster
with whatever conditions the call set on it, the store calls issued,
and the returned error if any. -/
structure HandleResult where
  status : KubeconfigStatus
  cluster : GardenerCluster
  mutations : List SecretMutation
  err : Option HandleError
deriving Repr, DecidableEq

/-- Body of `handleKubeconfig` after the `getSecret` call, taking the
`existingSecret` pointer (`none` when the lookup was not-found). -/
def handleKubeconfigCont (env : Env) (rotationPeriod : Int)
    (cluster : GardenerCluster) (existingSecret : Option Secret) :
    HandleResult :=
  match env.fetch with
  | none =>
      ⟨.ksZero, UpdateConditionForErrorState cluster .FailedToGetKubeconfig,
        [], some .fetchFailed⟩
  | some kubeconfig =>
    if secretRotationForced cluster then
      match existingSecret with
      | none => ⟨.ksRotated, cluster, [], none⟩
      | some s =>
          let s' := stripKubeconfig cluster.kubeconfigSecret.key s
          if env.updateOk then
            ⟨.ksRotated, cluster, [.update s'], none⟩
          else
            ⟨.ksZero,
              UpdateConditionForErrorState cluster .FailedToDeleteSecret,
              [.update s'], some .removeFailed⟩
    else if !(secretNeedsToBeRotated cluster existingSecret rotationPeriod env.now) then
      ⟨.ksZero, cluster, [], none⟩
    else
      match existingSecret with
      | some s =>
          let s' := refreshedSecret cluster.kubeconfigSecret.key kubeconfig
            env.lastSyncStr s
          if env.updateOk then
            ⟨.ksModified,
              UpdateConditionForReadyState cluster .KubeconfigSecretRotated,
              [.update s'], none⟩
          else
            ⟨.ksModified,
              UpdateConditionForErrorState cluster .FailedToUpdateSecret,
              [.update s'], some .updateFailed⟩
      | none =>
          let s' := newSecret cluster kubeconfig env.lastSyncStr
          if env.createOk then
            ⟨.ksCreated,
              UpdateConditionForReadyState cluster .KubeconfigSecretCreated,
              [.create s'], none⟩
          else
            ⟨.ksCreated,
              UpdateConditionForErrorState cluster .FailedToCreateSecret,
              [.create s'], some .createFailed⟩

/-- `handleKubeconfig`: look up the existing secret (non-not-found
lookup failures set `FailedToGetSecret` and return), fetch a fresh
kubeconfig (failures set `FailedToGetKubeconfig` and return), then
dispatch on forced rotation, rotation due, and secret presence. -/
def handleKubeconfig (env : Env) (rotationPeriod : Int)
    (cluster : GardenerCluster) : HandleResult :=
  match getSecret env.listOk env.shootSecrets with
  | .listError =>
      ⟨.ksZero, UpdateConditionForErrorState cluster .FailedToGetSecret,
        [], some .listFailed⟩
  | .ambiguous =>
      ⟨.ksZero, UpdateConditionForErrorState cluster .FailedToGetSecret,
        [], some .ambiguousSecrets⟩
  | .notFound => handleKubeconfigCont env rotationPeriod cluster none
  | .found s => handleKubeconfigCont env rotationPeriod cluster (some s)

/-! ## `Reconcile` -/

/-- Result of the initial `controller.Get` on the access object. -/
inductive ClusterGetResult
  | found (c : GardenerCluster)
  | notFound
  | getError
deriving Repr

/-- `ctrl.Result`. -/
structure CtrlResult where
  requeue : Bool
  requeueAfter : Int
deriving Repr, DecidableEq

/-- `resultWithRequeue`: requeue after the configured rotation period. -/
def resultWithRequeue (rotationPeriod : Int) : CtrlResult :=
  ⟨true, rotationPeriod⟩

/-- `resultWithoutRequeue`: the zero `ctrl.Result`. -/
def resultWithoutRequeue : CtrlResult := ⟨false, 0⟩

/-- `deleteKubeconfigSecret`: list secrets by the cluster-name label
and delete the single match; any other match count is the
`unexpected numer of secrets found for cluster CR` error.  Returns the
issued store calls and whether an error was returned. -/
def deleteKubeconfigSecret (deleteOk : Bool) (crSecrets : List Secret) :
    List SecretMutation × Bool :=
  match crSecrets with
  | [s] => ([.delete s], !deleteOk)
  | _ => ([], true)

/-- The cluster after `delete(annotations, forceKubeconfigRotation...)`
followed by `SetAnnotations` (a nil map stays nil: `delete` on a nil Go
map is a no-op). -/
def removeForceMarker (c : GardenerCluster) : GardenerCluster :=
  { c with
    annotations := c.annotations.map (fun a => eraseA a forceKubeconfigRotationAnn) }

/-- `removeForceRotationAnnotation` of the source: when the marker is
present, re-`Get` the cluster, delete the marker and `Update`.  Returns
the cluster `Update` calls issued and whether an error was returned. -/
def removeForceRotation (env : Env) (cluster : GardenerCluster) :
    List GardenerCluster × Bool :=
  if secretRotationForced cluster then
    match env.refetch with
    | none => ([], true)
    | some clusterToUpdate =>
        ([removeForceMarker clusterToUpdate], !env.clusterUpdateOk)
  else
    ([], false)

/-- Whether the error `handleKubeconfig` returned satisfies
`k8serrors.IsNotFound`; only the kubeconfig fetch can produce a
gardener not-found here (the `getSecret` not-found never propagates and
the remaining errors are store/ambiguity failures). -/
def errIsNotFound (env : Env) : HandleError → Bool
  | .fetchFailed => env.fetchErrIsNotFound
  | _ => false

/-- What one `Reconcile` invocation produced: the `ctrl.Result`, the
returned error flag, the secret-store calls issued, whether
`persistStatusChange` was invoked, and the cluster `Update` calls that
persist the force-marker removal. -/
structure ReconcileResult where
  result : CtrlResult
  err : Bool
  mutations : List SecretMutation
  statusPersistAttempted : Bool
  clusterUpdates : List GardenerCluster
deriving Repr, DecidableEq

/-- `Reconcile`: not-found access objects route to
`deleteKubeconfigSecret`; otherwise `handleKubeconfig` runs and its
status drives the marker removal, the status persist and the requeue
directive.  On a `handleKubeconfig` error the status change is
persisted (best effort) and a gardener not-found is swallowed. -/
def Reconcile (env : Env) (rotationPeriod : Int) (get : ClusterGetResult) :
    ReconcileResult :=
  match get with
  | .getError => ⟨resultWithoutRequeue, true, [], false, []⟩
  | .notFound =>
      let r := deleteKubeconfigSecret env.deleteOk env.crSecrets
      ⟨resultWithoutRequeue, r.2, r.1, false, []⟩
  | .found cluster =>
      let h := handleKubeconfig env rotationPeriod cluster
      match h.err with
      | some e =>
          ⟨resultWithoutRequeue, !(errIsNotFound env e), h.mutations, true, []⟩
      | none =>
        match h.status with
        | .ksRotated =>
            let r := removeForceRotation env cluster
            if r.2 then
              ⟨resultWithoutRequeue, true, h.mutations, false, r.1⟩
            else
              ⟨resultWithRequeue rotationPeriod, false, h.mutations, false, r.1⟩
        | .ksCreated =>
            ⟨resultWithoutRequeue, false, h.mutations, true, []⟩
        | .ksModified =>
            ⟨resultWithoutRequeue, false, h.mutations, true, []⟩
        | .ksZero =>
            ⟨resultWithRequeue rotationPeriod, false, h.mutations, false, []⟩

/-! ## Auditlog extension upsert (`set_extension.go`) -/

/-- `gardener.Extension` restricted to the fields the mutation touches:
the type key and the raw provider config bytes. -/
structure GExtension where
  type : String
  providerConfig : Option String
deriving Repr, DecidableEq

/-- A `gardener.Shoot` restricted to the extension list plus a few
unrelated fields used to state frame conditions. -/
structure GShoot where
  name : String
  ns : String
  exposureClassName : Option String
  extensions : List GExtension
deriving Repr, DecidableEq

def auditlogExtensionType : String := "shoot-auditlog-service"

def auditlogReferenceName : String := "auditlog-credentials"

/-- The `GetAuditLogData` payload (`AuditLogData`). -/
structure AuditLogData where
  tenantID : String
  serviceURL : String
  secretName : String
deriving Repr, DecidableEq

/-- `AuditlogExtensionConfig` (TypeMeta inlined). -/
structure AuditlogExtensionConfig where
  kind : String
  apiVersion : String
  type : String
  tenantID : String
  serviceURL : String
  secretReferenceName : String
deriving Repr, DecidableEq

/-- Model of `json.NewEncoder(&buffer).Encode(&cfg)`: Go's encoder is
deterministic, emits the struct fields in declaration order and appends
a newline.  (JSON string escaping is not modelled; no claim depends on
it, only on the encoding being a function of the config.) -/
def encodeAuditlogExtensionConfig (c : AuditlogExtensionConfig) : String :=
  "\x7b\"kind\":\"" ++ c.kind ++
    "\",\"apiVersion\":\"" ++ c.apiVersion ++
    "\",\"type\":\"" ++ c.type ++
    "\",\"tenantID\":\"" ++ c.tenantID ++
    "\",\"serviceURL\":\"" ++ c.serviceURL ++
    "\",\"secretReferenceName\":\"" ++ c.secretReferenceName ++
    "\"\x7d\n"

/-- The config value `oSetExtension` builds from the auditlog data. -/
def auditlogConfigFor (d : AuditLogData) : AuditlogExtensionConfig :=
  { kind := "AuditlogConfig"
    apiVersion := "service.auditlog.extensions.gardener.cloud/v1alpha1"
    type := "standard"
    tenantID := d.tenantID
    serviceURL := d.serviceURL
    secretReferenceName := auditlogReferenceName }

/-- The extension entry `oSetExtension` writes. -/
def auditlogExt (d : AuditLogData) : GExtension :=
  { type := auditlogExtensionType
    providerConfig := some (encodeAuditlogExtensionConfig (auditlogConfigFor d)) }

/-- `slices.IndexFunc`: index of the first element satisfying `p`
(`none` in place of Go's `-1`). -/
def indexFunc {α : Type} (p : α → Bool) : List α → Option Nat
  | [] => none
  | x :: rest => if p x then some 0 else (indexFunc p rest).map (· + 1)

/-- `oSetExtension d`: build the auditlog extension entry, locate an
existing entry with the auditlog type, and append when absent or
replace in place when present.  (The only fallible step in the source
is the JSON encode of a plain struct, which cannot fail, so the model
is total.) -/
def oSetExtension (d : AuditLogData) (s : GShoot) : GShoot :=
  let extension := auditlogExt d
  match indexFunc (fun e => e.type == auditlogExtensionType) s.extensions with
  | none => { s with extensions := s.extensions ++ [extension] }
  | some index => { s with extensions := s.extensions.set index extension }

/-! ## Create-shoot FSM step (`runtime_fsm_create_shoot.go`) -/

/-- Condition reasons of the runtime-provisioning FSM. -/
inductive RuntimeCondReason
  | GardenerError
  | SeedNotFound
  | AuditLogError
  | ConversionError
  | ShootCreationPending
deriving Repr, DecidableEq

/-- The fields of `Runtime.Spec.Shoot` that `sFnCreateShoot` reads. -/
structure RuntimeShootSpec where
  enforceSeedLocation : Option Bool
  providerType : String
  region : String
  purpose : String
deriving Repr, DecidableEq

/-- External-world inputs of one `sFnCreateShoot` invocation. -/
structure CreateShootEnv where
  /-- `seedForRegionAvailable` result: lookup failure, or
  `(seedAvailable, regionsWithSeeds)`. -/
  seedLookup : Except Unit (Bool × List String)
  /-- `GetAuditLogData` result. -/
  auditLogData : Except Unit AuditLogData
  /-- `m.RCCfg.AuditLogMandatory`. -/
  auditLogMandatory : Bool
  /-- `m.ConverterConfig.MaintenanceWindow.WindowMapPath`. -/
  windowMapPath : String
  /-- `maintenance.GetMaintenanceWindow` result (the window itself is
  opaque to this step). -/
  maintenanceWindow : Except Unit Unit
  /-- `convertCreate` result: label validation plus `ToShoot`. -/
  convertResult : Except Unit GShoot
  /-- Success of `m.ShootClient.Create`. -/
  createOk : Bool
  /-- `m.GardenerRequeueDuration`. -/
  gardenerRequeueDuration : Int
deriving Repr

/-- Observable outcome of one `sFnCreateShoot` invocation: the
condition reason/status it set, how often
`Metrics.IncRuntimeFSMStopCounter` ran, the shoots passed to
`ShootClient.Create`, and the returned directive — `stop = true` is the
terminal `updateStatePendingWithErrorAndStop` path, otherwise the step
requeues after `requeueAfter`. -/
structure FsmStepResult where
  reason : Option RuntimeCondReason
  condStatus : Option CondStatus
  stopCounterIncrements : Nat
  createdShoots : List GShoot
  stop : Bool
  requeueAfter : Option Int
deriving Repr, DecidableEq

/-- Modelled from the spec: `updateStatePendingWithErrorAndStop` (not
under `src/`) sets a `False` condition with the given reason and ends
the FSM run as a terminal stop with no further requeue. -/
def stopWithReason (reason : RuntimeCondReason) (counter : Nat)
    (created : List GShoot) : FsmStepResult :=
  ⟨some reason, some .statusFalse, counter, created, true, none⟩

/-- Modelled from the spec: `updateStatusAndRequeueAfter` (not under
`src/`) persists the condition just set and requeues after the given
duration. -/
def requeueWithReason (reason : RuntimeCondReason) (status : CondStatus)
    (counter : Nat) (created : List GShoot) (d : Int) : FsmStepResult :=
  ⟨some reason, some status, counter, created, false, some d⟩

/-- Tail of `sFnCreateShoot` after the seed check: audit-log fetch
(mandatory failures stop), maintenance-window fetch (failures only
logged), conversion (failures stop) and the `Create` call. -/
def createShootCore (env : CreateShootEnv) : FsmStepResult :=
  match env.auditLogData, env.auditLogMandatory with
  | .error _, true => stopWithReason .AuditLogError 1 []
  | _, _ =>
    match env.convertResult with
    | .error _ => stopWithReason .ConversionError 1 []
    | .ok shoot =>
        if env.createOk then
          requeueWithReason .ShootCreationPending .statusUnknown 0 [shoot]
            env.gardenerRequeueDuration
        else
          requeueWithReason .GardenerError .statusFalse 0 [shoot]
            env.gardenerRequeueDuration

/-- `sFnCreateShoot`: when `EnforceSeedLocation` is set and true, check
seed availability first — lookup errors requeue with `GardenerError`,
a negative lookup stops with `SeedNotFound` after bumping the stop
counter — then continue with `createShootCore`. -/
def sFnCreateShoot (env : CreateShootEnv) (spec : RuntimeShootSpec) :
    FsmStepResult :=
  if spec.enforceSeedLocation = some true then
    match env.seedLookup with
    | .error _ =>
        requeueWithReason .GardenerError .statusFalse 0 []
          env.gardenerRequeueDuration
    | .ok (seedAvailable, _) =>
        if !seedAvailable then
          stopWithReason .SeedNotFound 1 []
        else
          createShootCore env
  else
    createShootCore env

/-! ## Concrete fixtures used by witnesses and counterexamples -/

def syncStrEx : String := "2024-05-01T10:30:00Z"

/-- The instant recorded by `syncStrEx`, in model seconds. -/
def syncTimeEx : Int := (parseRFC3339 syncStrEx).getD 0

def secretRefEx : KubeconfigSecretRef :=
  { name := "kubeconfig-secret", ns := "kcp-system", key := "config" }

def clusterEx : GardenerCluster :=
  { name := "cluster-1"
    ns := "kcp-system"
    labels := [("app", "im")]
    annotations := some []
    shootName := "shoot-1"
    kubeconfigSecret := secretRefEx
    conditions := [] }

def forcedClusterEx : GardenerCluster :=
  { clusterEx with
    annotations := some [(forceKubeconfigRotationAnn, "true")] }

def secretEx : Secret :=
  { name := "kubeconfig-secret"
    ns := "kcp-system"
    labels := [(shootNameLabel, "shoot-1")]
    annotations := some [(lastKubeconfigSyncAnn, syncStrEx)]
    data := [("config", "old-kubeconfig")]
    stringData := [] }

def kubeconfigEx : String := "fresh-kubeconfig-bytes"

/-- 90 % of a 6000-second rotation period after the recorded sync. -/
def nowEx90 : Int := syncTimeEx + 5400

def envEx : Env :=
  { shootSecrets := [secretEx]
    listOk := true
    fetch := some kubeconfigEx
    fetchErrIsNotFound := false
    updateOk := true
    createOk := true
    deleteOk := true
    crSecrets := []
    refetch := some clusterEx
    clusterUpdateOk := true
    now := nowEx90
    lastSyncStr := syncStrEx }

/-! ## Claim theorems -/

/-- Exact-arithmetic bridge between the spec's `0.95 ×` threshold and
the embedded integer comparison. -/
theorem ratio95_le_iff (p e : Int) :
    (95 : ℚ) / 100 * (p : ℚ) ≤ (e : ℚ) ↔ 95 * p ≤ 100 * e := by
  rw [div_mul_eq_mul_div, div_le_iff₀ (by norm_num : (0 : ℚ) < 100),
    mul_comm (e : ℚ) 100]
  constructor
  · intro h
    exact_mod_cast h
  · intro h
    exact_mod_cast h

/-- Claim C1: `secretNeedsToBeRotated` is true iff rotation is forced on
the access object, or the secret is absent, or its last-sync entry is
missing or unparsable, or `now - lastSync ≥ 0.95 × rotationPeriod`; in
particular (for a positive period, with forcing off) it is false at an
elapsed time of exactly `0.90 × period`, true at exactly
`0.96 × period`, and true whenever forcing is on, regardless of the
recorded sync time.  The elapsed-time equalities are stated in the
equivalent integer form `100 * (now - t) = 90 * period` (resp. `96`). -/
theorem secretNeedsToBeRotated_spec (cluster : GardenerCluster)
    (secret : Option Secret) (rotationPeriod now : Int) :
    (secretNeedsToBeRotated cluster secret rotationPeriod now = true ↔
      (secretRotationForced cluster = true ∨ secret = none ∨
        (∃ s, secret = some s ∧
          lookupA (s.annotations.getD []) lastKubeconfigSyncAnn = none) ∨
        (∃ s v, secret = some s ∧
          lookupA (s.annotations.getD []) lastKubeconfigSyncAnn = some v ∧
          parseRFC3339 v = none) ∨
        (∃ s v t, secret = some s ∧
          lookupA (s.annotations.getD []) lastKubeconfigSyncAnn = some v ∧
          parseRFC3339 v = some t ∧
          (95 : ℚ) / 100 * (rotationPeriod : ℚ) ≤ ((now - t : Int) : ℚ)))) ∧
    (∀ s v t, secretRotationForced cluster = false → secret = some s →
      lookupA (s.annotations.getD []) lastKubeconfigSyncAnn = some v →
      parseRFC3339 v = some t → 0 < rotationPeriod →
      100 * (now - t) = 90 * rotationPeriod →
      secretNeedsToBeRotated cluster secret rotationPeriod now = false) ∧
    (∀ s v t, secret = some s →
      lookupA (s.annotations.getD []) lastKubeconfigSyncAnn = some v →
      parseRFC3339 v = some t → 0 < rotationPeriod →
      100 * (now - t) = 96 * rotationPeriod →
      secretNeedsToBeRotated cluster secret rotationPeriod now = true) ∧
    (secretRotationForced cluster = true →
      secretNeedsToBeRotated cluster secret rotationPeriod now = true) := by
  refine ⟨?_, ?_, ?_, ?_⟩
  · cases secret with
    | none => simp [secretNeedsToBeRotated, secretRotationTimePassed]
    | some s =>
      cases hl : lookupA (s.annotations.getD []) lastKubeconfigSyncAnn with
      | none => simp [secretNeedsToBeRotated, secretRotationTimePassed, hl]
      | some v =>
        cases hp : parseRFC3339 v with
        | none =>
            simp [secretNeedsToBeRotated, secretRotationTimePassed, hl, hp]
        | some t =>
            simp only [secretNeedsToBeRotated, secretRotationTimePassed, hl,
              hp, Bool.or_eq_true, decide_eq_true_eq]
            constructor
            · rintro (h | h)
              · right; right; right; right
                exact ⟨s, v, t, rfl, hl, hp, (ratio95_le_iff _ _).mpr h⟩
              · left
                exact h
            · rintro (h | h | ⟨s', hs', hl'⟩ | ⟨s', v', hs', hl', hp'⟩ |
                ⟨s', v', t', hs', hl', hp', hle⟩)
              · right
                exact h
              · exact Option.noConfusion h
              · obtain rfl := Option.some.inj hs'
                rw [hl] at hl'
                exact Option.noConfusion hl'
              · obtain rfl := Option.some.inj hs'
                rw [hl] at hl'
                obtain rfl := Option.some.inj hl'
                rw [hp] at hp'
                exact Option.noConfusion hp'
              · obtain rfl := Option.some.inj hs'
                rw [hl] at hl'
                obtain rfl := Option.some.inj hl'
                rw [hp] at hp'
                obtain rfl := Option.some.inj hp'
                left
                exact (ratio95_le_iff _ _).mp hle
  · intro s v t hf hs hl hp hpos helapsed
    subst hs
    have hnot : ¬ 95 * rotationPeriod ≤ 100 * (now - t) := by omega
    simp [secretNeedsToBeRotated, secretRotationTimePassed, hl, hp, hf, hnot]
  · intro s v t hs hl hp hpos helapsed
    subst hs
    have hle : 95 * rotationPeriod ≤ 100 * (now - t) := by omega
    simp [secretNeedsToBeRotated, secretRotationTimePassed, hl, hp, hle]
  · intro hf
    simp [secretNeedsToBeRotated, hf]

/-- Witness for C1: at a 6000-second period the concrete secret synced
`syncStrEx` ago is not rotated at 90 % of the period, is rotated at
96 %, and is rotated whenever forcing is on. -/
theorem secretNeedsToBeRotated_spec_witness :
    secretNeedsToBeRotated clusterEx (some secretEx) 6000 nowEx90 = false ∧
    secretNeedsToBeRotated clusterEx (some secretEx) 6000 (syncTimeEx + 5760) = true ∧
    secretNeedsToBeRotated forcedClusterEx (some secretEx) 6000 nowEx90 = true := by
  refine ⟨?_, ?_, ?_⟩
  · exact (secretNeedsToBeRotated_spec clusterEx (some secretEx) 6000
      nowEx90).2.1 secretEx syncStrEx syncTimeEx (by decide) rfl (by decide)
      (by decide) (by decide) (by decide)
  · exact (secretNeedsToBeRotated_spec clusterEx (some secretEx) 6000
      (syncTimeEx + 5760)).2.2.1 secretEx syncStrEx syncTimeEx rfl (by decide)
      (by decide) (by decide) (by decide)
  · exact (secretNeedsToBeRotated_spec forcedClusterEx (some secretEx) 6000
      nowEx90).2.2.2 (by decide)

/-- Claim C2 as frozen is false on the code: with the access object
present, exactly one matching secret, a successful fetch and no forced
rotation, the invocation does not proceed to the update path when
rotation is not yet due — it returns `ksZero` and issues no store
call. -/
theorem handleKubeconfig_one_match_counterexample :
    List.length envEx.shootSecrets = 1 ∧
    secretRotationForced clusterEx = false ∧
    Option.isSome envEx.fetch = true ∧
    (handleKubeconfig envEx 6000 clusterEx).status = KubeconfigStatus.ksZero ∧
    (handleKubeconfig envEx 6000 clusterEx).mutations = [] := by
  refine ⟨rfl, by decide, rfl, ?_, ?_⟩ <;> decide

/-- Claim C2 amended: with the access object present, the lookup list
call succeeding, the fetch succeeding and rotation not forced: zero
matches proceed to the create path; one match proceeds to the update
path when rotation is due for that secret and performs no mutation
otherwise; two or more matches return the ambiguity error and perform
no mutation. -/
theorem handleKubeconfig_match_count (env : Env) (cluster : GardenerCluster)
    (p : Int) (k : String)
    (hlist : env.listOk = true)
    (hfetch : env.fetch = some k)
    (hforced : secretRotationForced cluster = false) :
    (env.shootSecrets = [] →
      (handleKubeconfig env p cluster).status = .ksCreated ∧
      (handleKubeconfig env p cluster).mutations =
        [.create (newSecret cluster k env.lastSyncStr)]) ∧
    (∀ s, env.shootSecrets = [s] →
      (secretRotationTimePassed p env.now (some s) = true →
        (handleKubeconfig env p cluster).status = .ksModified ∧
        (handleKubeconfig env p cluster).mutations =
          [.update (refreshedSecret cluster.kubeconfigSecret.key k
            env.lastSyncStr s)]) ∧
      (secretRotationTimePassed p env.now (some s) = false →
        (handleKubeconfig env p cluster).status = .ksZero ∧
        (handleKubeconfig env p cluster).mutations = [])) ∧
    (∀ s₁ s₂ rest, env.shootSecrets = s₁ :: s₂ :: rest →
      (handleKubeconfig env p cluster).err = some .ambiguousSecrets ∧
      (handleKubeconfig env p cluster).mutations = []) := by
  refine ⟨?_, ?_, ?_⟩
  · intro hsec
    have hdue : secretNeedsToBeRotated cluster none p env.now = true := by
      simp [secretNeedsToBeRotated, secretRotationTimePassed]
    cases hc : env.createOk <;>
      simp [handleKubeconfig, getSecret, handleKubeconfigCont, hlist, hsec,
        hfetch, hforced, hdue, hc]
  · intro s hsec
    constructor
    · intro hdue
      have hrot : secretNeedsToBeRotated cluster (some s) p env.now = true := by
        simp [secretNeedsToBeRotated, hdue]
      cases hu : env.updateOk <;>
        simp [handleKubeconfig, getSecret, handleKubeconfigCont, hlist, hsec,
          hfetch, hforced, hrot, hu]
    · intro hdue
      have hrot : secretNeedsToBeRotated cluster (some s) p env.now = false := by
        simp [secretNeedsToBeRotated, hdue, hforced]
      simp [handleKubeconfig, getSecret, handleKubeconfigCont, hlist, hsec,
        hfetch, hforced, hrot]
  · intro s₁ s₂ rest hsec
    simp [handleKubeconfig, getSecret, hlist, hsec]

/-- Witness for the amended C2 at the concrete environment: one fresh
match, rotation not due, so no store call and status `ksZero`. -/
theorem handleKubeconfig_match_count_witness :
    (handleKubeconfig envEx 6000 clusterEx).status = KubeconfigStatus.ksZero ∧
    (handleKubeconfig envEx 6000 clusterEx).mutations = [] :=
  ((handleKubeconfig_match_count envEx clusterEx 6000 kubeconfigEx rfl rfl
    (by decide)).2.1 secretEx rfl).2 (by decide)

/-- Claim C3 as frozen is false on the code: when the access object is
gone and zero secrets match the cluster-name label, `Reconcile` returns
the "unexpected number of secrets" error instead of succeeding. -/
theorem reconcile_notFound_zero_counterexample :
    envEx.crSecrets = [] ∧
    (Reconcile envEx 6000 ClusterGetResult.notFound).err = true ∧
    (Reconcile envEx 6000 ClusterGetResult.notFound).mutations = [] := by
  refine ⟨rfl, ?_, ?_⟩ <;> decide

/-- Claim C3 amended: on a not-found access object the secret is
located by the cluster-name label; with exactly one match that secret
is deleted (and the invocation succeeds when the delete does); with
zero matches, and likewise with two or more, the invocation returns the
unexpected-number-of-secrets error and deletes nothing. -/
theorem reconcile_notFound_delete (env : Env) (p : Int) :
    (∀ s, env.crSecrets = [s] → env.deleteOk = true →
      (Reconcile env p .notFound).mutations = [.delete s] ∧
      (Reconcile env p .notFound).err = false) ∧
    (env.crSecrets = [] →
      (Reconcile env p .notFound).err = true ∧
      (Reconcile env p .notFound).mutations = []) ∧
    (∀ s₁ s₂ rest, env.crSecrets = s₁ :: s₂ :: rest →
      (Reconcile env p .notFound).err = true ∧
      (Reconcile env p .notFound).mutations = []) := by
  refine ⟨?_, ?_, ?_⟩
  · intro s hsec hdel
    simp [Reconcile, deleteKubeconfigSecret, hsec, hdel]
  · intro hsec
    simp [Reconcile, deleteKubeconfigSecret, hsec]
  · intro s₁ s₂ rest hsec
    simp [Reconcile, deleteKubeconfigSecret, hsec]

/-- Witness for the amended C3: with exactly one labelled secret the
not-found path deletes it and succeeds. -/
theorem reconcile_notFound_delete_witness :
    (Reconcile { envEx with crSecrets := [secretEx] } 6000
      ClusterGetResult.notFound).mutations = [SecretMutation.delete secretEx] ∧
    (Reconcile { envEx with crSecrets := [secretEx] } 6000
      ClusterGetResult.notFound).err = false :=
  (reconcile_notFound_delete { envEx with crSecrets := [secretEx] } 6000).1
    secretEx rfl rfl

/-- Any condition upserted into a condition list is present in the
result. -/
theorem mem_upsertCondition (cs : List Condition) (c : Condition) :
    c ∈ upsertCondition cs c := by
  induction cs with
  | nil => simp [upsertCondition]
  | cons c₀ rest ih =>
      by_cases h : c₀.condType = c.condType
      · simp [upsertCondition, h]
      · simp [upsertCondition, h, ih]

/-- Claim C4: with the access object present, forced rotation on, and
one existing secret found: `handleKubeconfig` returns `ksRotated` with
no error, the single store call is an update of the found secret whose
kubeconfig data entry and last-sync entry are removed while its name,
namespace, labels, string data, remaining data entries, remaining
annotations and the presence of its annotations map are kept; and
`Reconcile` then persists exactly one access-object update carrying the
force marker's removal. -/
theorem forced_rotation_with_secret (env : Env) (cluster : GardenerCluster)
    (p : Int) (s : Secret) (k : String)
    (hlist : env.listOk = true)
    (hsec : env.shootSecrets = [s])
    (hfetch : env.fetch = some k)
    (hforced : secretRotationForced cluster = true)
    (hupd : env.updateOk = true)
    (hrefetch : env.refetch = some cluster)
    (hcupd : env.clusterUpdateOk = true) :
    (handleKubeconfig env p cluster).status = .ksRotated ∧
    (handleKubeconfig env p cluster).err = none ∧
    (handleKubeconfig env p cluster).mutations =
      [.update (stripKubeconfig cluster.kubeconfigSecret.key s)] ∧
    ((stripKubeconfig cluster.kubeconfigSecret.key s).name = s.name ∧
      (stripKubeconfig cluster.kubeconfigSecret.key s).ns = s.ns ∧
      (stripKubeconfig cluster.kubeconfigSecret.key s).labels = s.labels ∧
      (stripKubeconfig cluster.kubeconfigSecret.key s).stringData =
        s.stringData ∧
      lookupA (stripKubeconfig cluster.kubeconfigSecret.key s).data
        cluster.kubeconfigSecret.key = none ∧
      (∀ k', k' ≠ cluster.kubeconfigSecret.key →
        lookupA (stripKubeconfig cluster.kubeconfigSecret.key s).data k' =
          lookupA s.data k') ∧
      ((stripKubeconfig cluster.kubeconfigSecret.key s).annotations).isSome =
        s.annotations.isSome ∧
      (∀ a, (stripKubeconfig cluster.kubeconfigSecret.key s).annotations =
          some a → lookupA a lastKubeconfigSyncAnn = none) ∧
      (∀ k', k' ≠ lastKubeconfigSyncAnn →
        lookupA
          (((stripKubeconfig cluster.kubeconfigSecret.key s).annotations).getD [])
          k' = lookupA (s.annotations.getD []) k')) ∧
    (Reconcile env p (.found cluster)).clusterUpdates =
      [removeForceMarker cluster] ∧
    (∀ a, (removeForceMarker cluster).annotations = some a →
      lookupA a forceKubeconfigRotationAnn = none) ∧
    (Reconcile env p (.found cluster)).err = false := by
  have hhandle : handleKubeconfig env p cluster =
      ⟨.ksRotated, cluster,
        [.update (stripKubeconfig cluster.kubeconfigSecret.key s)], none⟩ := by
    simp [handleKubeconfig, getSecret, handleKubeconfigCont, hlist, hsec,
      hfetch, hforced, hupd]
  refine ⟨by rw [hhandle], by rw [hhandle], by rw [hhandle], ?_, ?_, ?_, ?_⟩
  · refine ⟨rfl, rfl, rfl, rfl, lookupA_eraseA _ _, ?_, ?_, ?_, ?_⟩
    · intro k' hk'
      exact lookupA_eraseA_ne _ _ _ hk'
    · cases hs : s.annotations <;> simp [stripKubeconfig, hs]
    · intro a ha
      cases hs : s.annotations with
      | none => simp [stripKubeconfig, hs] at ha
      | some a₀ =>
          simp [stripKubeconfig, hs] at ha
          subst ha
          exact lookupA_eraseA _ _
    · intro k' hk'
      cases hs : s.annotations with
      | none => simp [stripKubeconfig, hs]
      | some a₀ => simpa [stripKubeconfig, hs] using lookupA_eraseA_ne a₀ _ _ hk'
  · simp [Reconcile, hhandle, removeForceRotation, hforced, hrefetch, hcupd]
  · intro a ha
    cases hc : cluster.annotations with
    | none => simp [removeForceMarker, hc] at ha
    | some a₀ =>
        simp [removeForceMarker, hc] at ha
        subst ha
        exact lookupA_eraseA _ _
  · simp [Reconcile, hhandle, removeForceRotation, hforced, hrefetch, hcupd]

/-- Witness for C4 at the concrete forced cluster and existing secret. -/
theorem forced_rotation_with_secret_witness :
    (handleKubeconfig { envEx with refetch := some forcedClusterEx } 6000
      forcedClusterEx).status = KubeconfigStatus.ksRotated ∧
    (Reconcile { envEx with refetch := some forcedClusterEx } 6000
      (ClusterGetResult.found forcedClusterEx)).clusterUpdates =
      [removeForceMarker forcedClusterEx] := by
  have h := forced_rotation_with_secret
    { envEx with refetch := some forcedClusterEx } forcedClusterEx 6000
    secretEx kubeconfigEx rfl rfl rfl (by decide) rfl rfl rfl
  exact ⟨h.1, h.2.2.2.2.1⟩

/-- Claim C5 as frozen is false on the code: with rotation neither
forced nor due, the returned directive requeues after the full
configured rotation period (6000 s here), not after the remaining
300 s to the `0.95 ×` threshold. -/
theorem reconcile_none_requeue_counterexample :
    secretRotationForced clusterEx = false ∧
    secretNeedsToBeRotated clusterEx (some secretEx) 6000 envEx.now = false ∧
    (Reconcile envEx 6000 (ClusterGetResult.found clusterEx)).result.requeueAfter
      = 6000 ∧
    95 * 6000 / 100 - (envEx.now - syncTimeEx) = 300 ∧
    (300 : Int) ≠ 6000 := by
  refine ⟨by decide, by decide, ?_, by decide, by decide⟩
  decide

/-- Claim C5 amended: with the access object present, rotation not
forced and rotation not due for the single matching secret, the outcome
is `ksZero` (NONE): no store call is issued, no status change is
persisted, no error is returned, and the directive requeues after the
configured rotation period (not after the remaining time to the
threshold). -/
theorem reconcile_none_no_mutation (env : Env) (cluster : GardenerCluster)
    (p : Int) (s : Secret) (k : String)
    (hlist : env.listOk = true)
    (hsec : env.shootSecrets = [s])
    (hfetch : env.fetch = some k)
    (hforced : secretRotationForced cluster = false)
    (hnotdue : secretRotationTimePassed p env.now (some s) = false) :
    (handleKubeconfig env p cluster).status = .ksZero ∧
    (handleKubeconfig env p cluster).err = none ∧
    (handleKubeconfig env p cluster).mutations = [] ∧
    (Reconcile env p (.found cluster)).result = resultWithRequeue p ∧
    (Reconcile env p (.found cluster)).result.requeueAfter = p ∧
    (Reconcile env p (.found cluster)).err = false ∧
    (Reconcile env p (.found cluster)).statusPersistAttempted = false ∧
    (Reconcile env p (.found cluster)).mutations = [] ∧
    (Reconcile env p (.found cluster)).clusterUpdates = [] := by
  have hrot : secretNeedsToBeRotated cluster (some s) p env.now = false := by
    simp [secretNeedsToBeRotated, hnotdue, hforced]
  have hhandle : handleKubeconfig env p cluster = ⟨.ksZero, cluster, [], none⟩ := by
    simp [handleKubeconfig, getSecret, handleKubeconfigCont, hlist, hsec,
      hfetch, hforced, hrot]
  refine ⟨by rw [hhandle], by rw [hhandle], by rw [hhandle], ?_, ?_, ?_, ?_, ?_, ?_⟩ <;>
    simp [Reconcile, hhandle, resultWithRequeue]

/-- Witness for the amended C5 at the concrete fresh secret. -/
theorem reconcile_none_no_mutation_witness :
    (Reconcile envEx 6000 (ClusterGetResult.found clusterEx)).result =
      resultWithRequeue 6000 ∧
    (Reconcile envEx 6000 (ClusterGetResult.found clusterEx)).mutations = [] := by
  have h := reconcile_none_no_mutation envEx clusterEx 6000 secretEx
    kubeconfigEx rfl rfl rfl (by decide) (by decide)
  exact ⟨h.2.2.2.1, h.2.2.2.2.2.2.2.1⟩

/-- Claim C9: when the access object exists and the secret lookup is
not ambiguous, the kubeconfig fetch happens before the forced-rotation
and rotation-due decisions: a fetch failure makes `handleKubeconfig`
set the `FailedToGetKubeconfig` error condition on the access object
and return the error with no store call — for every cluster, so also in
runs where rotation is neither forced nor due. -/
theorem fetch_failure_sets_condition (env : Env) (cluster : GardenerCluster)
    (p : Int)
    (hlist : env.listOk = true)
    (hnoamb : env.shootSecrets = [] ∨ ∃ s, env.shootSecrets = [s])
    (hfetch : env.fetch = none) :
    (handleKubeconfig env p cluster).err = some .fetchFailed ∧
    (handleKubeconfig env p cluster).status = .ksZero ∧
    (handleKubeconfig env p cluster).mutations = [] ∧
    (handleKubeconfig env p cluster).cluster =
      UpdateConditionForErrorState cluster .FailedToGetKubeconfig ∧
    (⟨conditionTypeKubeconfigManagement, .statusFalse, .FailedToGetKubeconfig⟩ :
        Condition) ∈ (handleKubeconfig env p cluster).cluster.conditions := by
  have hhandle : handleKubeconfig env p cluster =
      ⟨.ksZero, UpdateConditionForErrorState cluster .FailedToGetKubeconfig,
        [], some .fetchFailed⟩ := by
    rcases hnoamb with hsec | ⟨s, hsec⟩ <;>
      simp [handleKubeconfig, getSecret, handleKubeconfigCont, hlist, hsec,
        hfetch]
  refine ⟨by rw [hhandle], by rw [hhandle], by rw [hhandle], by rw [hhandle], ?_⟩
  rw [hhandle]
  exact mem_upsertCondition _ _

/-- Witness for C9 at the concrete cluster with the fetch failing. -/
theorem fetch_failure_sets_condition_witness :
    (handleKubeconfig { envEx with fetch := none } 6000 clusterEx).err =
      some HandleError.fetchFailed ∧
    (handleKubeconfig { envEx with fetch := none } 6000 clusterEx).mutations =
      [] := by
  have h := fetch_failure_sets_condition { envEx with fetch := none }
    clusterEx 6000 rfl (Or.inr ⟨secretEx, rfl⟩) rfl
  exact ⟨h.1, h.2.2.1⟩

/-- Claim C10: forced rotation with no matching secret:
`handleKubeconfig` still returns `ksRotated`, with no error and no
store call (`removeKubeconfig` returns nil immediately), and
`Reconcile` still persists the force marker's removal from the access
object. -/
theorem forced_rotation_without_secret (env : Env) (cluster : GardenerCluster)
    (p : Int) (k : String)
    (hlist : env.listOk = true)
    (hsec : env.shootSecrets = [])
    (hfetch : env.fetch = some k)
    (hforced : secretRotationForced cluster = true)
    (hrefetch : env.refetch = some cluster)
    (hcupd : env.clusterUpdateOk = true) :
    (handleKubeconfig env p cluster).status = .ksRotated ∧
    (handleKubeconfig env p cluster).err = none ∧
    (handleKubeconfig env p cluster).mutations = [] ∧
    (Reconcile env p (.found cluster)).clusterUpdates =
      [removeForceMarker cluster] ∧
    (∀ a, (removeForceMarker cluster).annotations = some a →
      lookupA a forceKubeconfigRotationAnn = none) ∧
    (Reconcile env p (.found cluster)).err = false := by
  have hhandle : handleKubeconfig env p cluster =
      ⟨.ksRotated, cluster, [], none⟩ := by
    simp [handleKubeconfig, getSecret, handleKubeconfigCont, hlist, hsec,
      hfetch, hforced]
  refine ⟨by rw [hhandle], by rw [hhandle], by rw [hhandle], ?_, ?_, ?_⟩
  · simp [Reconcile, hhandle, removeForceRotation, hforced, hrefetch, hcupd]
  · intro a ha
    cases hc : cluster.annotations with
    | none => simp [removeForceMarker, hc] at ha
    | some a₀ =>
        simp [removeForceMarker, hc] at ha
        subst ha
        exact lookupA_eraseA _ _
  · simp [Reconcile, hhandle, removeForceRotation, hforced, hrefetch, hcupd]

/-- Witness for C10: forced cluster, no matching secret. -/
theorem forced_rotation_without_secret_witness :
    (handleKubeconfig
      { envEx with shootSecrets := [], refetch := some forcedClusterEx } 6000
      forcedClusterEx).status = KubeconfigStatus.ksRotated ∧
    (handleKubeconfig
      { envEx with shootSecrets := [], refetch := some forcedClusterEx } 6000
      forcedClusterEx).mutations = [] := by
  have h := forced_rotation_without_secret
    { envEx with shootSecrets := [], refetch := some forcedClusterEx }
    forcedClusterEx 6000 kubeconfigEx rfl rfl rfl (by decide) rfl rfl
  exact ⟨h.1, h.2.2.1⟩

/-- Claim C6: with `EnforceSeedLocation` set and true and the seed
lookup succeeding but reporting no available seed, `sFnCreateShoot`
performs a terminal stop: `SeedNotFound` condition with status `False`,
exactly one stop-counter increment, no `Create` call, no requeue. -/
theorem createShoot_seedNotFound (env : CreateShootEnv)
    (spec : RuntimeShootSpec) (regions : List String)
    (henf : spec.enforceSeedLocation = some true)
    (hseed : env.seedLookup = .ok (false, regions)) :
    (sFnCreateShoot env spec).reason = some .SeedNotFound ∧
    (sFnCreateShoot env spec).condStatus = some .statusFalse ∧
    (sFnCreateShoot env spec).stopCounterIncrements = 1 ∧
    (sFnCreateShoot env spec).createdShoots = [] ∧
    (sFnCreateShoot env spec).stop = true ∧
    (sFnCreateShoot env spec).requeueAfter = none := by
  have h : sFnCreateShoot env spec = stopWithReason .SeedNotFound 1 [] := by
    simp [sFnCreateShoot, henf, hseed]
  rw [h]
  exact ⟨rfl, rfl, rfl, rfl, rfl, rfl⟩

/-! Fixtures for the FSM and extension claims. -/

def auditDataEx : AuditLogData :=
  { tenantID := "tenant-1"
    serviceURL := "https://auditlog.example.invalid"
    secretName := "audit-secret" }

def shootEx : GShoot :=
  { name := "shoot-1"
    ns := "garden-kyma"
    exposureClassName := none
    extensions := [{ type := "other-ext", providerConfig := none },
      { type := auditlogExtensionType, providerConfig := some "old" }] }

def createEnvEx : CreateShootEnv :=
  { seedLookup := .ok (false, ["eu-central-1"])
    auditLogData := .ok auditDataEx
    auditLogMandatory := false
    windowMapPath := ""
    maintenanceWindow := .ok ()
    convertResult := .ok shootEx
    createOk := true
    gardenerRequeueDuration := 20 }

def runtimeSpecEx : RuntimeShootSpec :=
  { enforceSeedLocation := some true
    providerType := "aws"
    region := "eu-west-1"
    purpose := "production" }

/-- Witness for C6 at the concrete environment of the spec's scenario:
requested region `eu-west-1`, seeds only in `eu-central-1`. -/
theorem createShoot_seedNotFound_witness :
    (sFnCreateShoot createEnvEx runtimeSpecEx).stopCounterIncrements = 1 ∧
    (sFnCreateShoot createEnvEx runtimeSpecEx).createdShoots = [] ∧
    (sFnCreateShoot createEnvEx runtimeSpecEx).stop = true := by
  have h := createShoot_seedNotFound createEnvEx runtimeSpecEx
    ["eu-central-1"] rfl rfl
  exact ⟨h.2.2.1, h.2.2.2.1, h.2.2.2.2.1⟩

/-! List lemmas for the extension upsert. -/

theorem indexFunc_lt_length {α : Type} (p : α → Bool) (xs : List α) (i : Nat)
    (h : indexFunc p xs = some i) : i < xs.length := by
  induction xs generalizing i with
  | nil => simp [indexFunc] at h
  | cons x rest ih =>
      rw [List.length_cons]
      by_cases hx : p x
      · simp [indexFunc, hx] at h
        omega
      · simp [indexFunc, hx] at h
        obtain ⟨j, hj, rfl⟩ := h
        have := ih j hj
        omega

theorem indexFunc_append_none {α : Type} (p : α → Bool) (xs : List α) (a : α)
    (h : indexFunc p xs = none) (ha : p a = true) :
    indexFunc p (xs ++ [a]) = some xs.length := by
  induction xs with
  | nil => simp [indexFunc, ha]
  | cons x rest ih =>
      simp only [indexFunc] at h
      by_cases hx : p x
      · simp [hx] at h
      · simp [hx] at h
        simp [indexFunc, hx, ih h]

theorem set_append_length {α : Type} (xs : List α) (a b : α) :
    (xs ++ [a]).set xs.length b = xs ++ [b] := by
  induction xs with
  | nil => rfl
  | cons x rest ih => simp [ih]

theorem indexFunc_set_self {α : Type} (p : α → Bool) (xs : List α) (i : Nat)
    (b : α) (h : indexFunc p xs = some i) (hb : p b = true) :
    indexFunc p (xs.set i b) = some i := by
  induction xs generalizing i with
  | nil => simp [indexFunc] at h
  | cons x rest ih =>
      by_cases hx : p x
      · simp [indexFunc, hx] at h
        subst h
        simp [indexFunc, hb]
      · simp [indexFunc, hx] at h
        obtain ⟨j, hj, rfl⟩ := h
        simp [indexFunc, hx, ih j hj]

theorem getElem?_set_self {α : Type} (xs : List α) (i : Nat) (a : α)
    (h : i < xs.length) : (xs.set i a)[i]? = some a := by
  induction xs generalizing i with
  | nil => simp at h
  | cons x rest ih =>
      cases i with
      | zero => simp
      | succ j =>
          simp only [List.set_cons_succ, List.getElem?_cons_succ]
          exact ih j (by simpa using h)

theorem getElem?_set_ne {α : Type} (xs : List α) (i j : Nat) (a : α)
    (h : j ≠ i) : (xs.set i a)[j]? = xs[j]? := by
  induction xs generalizing i j with
  | nil => simp
  | cons x rest ih =>
      cases i with
      | zero =>
          cases j with
          | zero => exact absurd rfl h
          | succ jj => simp
      | succ ii =>
          cases j with
          | zero => simp
          | succ jj =>
              simp only [List.set_cons_succ, List.getElem?_cons_succ]
              exact ih ii jj (fun hh => h (by rw [hh]))

/-- Claim C7: `oSetExtension` upserts by the extension type key: it
appends the auditlog entry when no entry of that type exists (length
grows by one, the existing entries stay a prefix), and replaces the
entry at the first matching index otherwise (length unchanged, every
other index unchanged); in both cases the shoot's other fields are kept
and the written entry carries the JSON encoding of the auditlog config
built from the data. -/
theorem oSetExtension_upsert (d : AuditLogData) (s : GShoot) :
    ((oSetExtension d s).name = s.name ∧ (oSetExtension d s).ns = s.ns ∧
      (oSetExtension d s).exposureClassName = s.exposureClassName) ∧
    (auditlogExt d).type = auditlogExtensionType ∧
    (auditlogExt d).providerConfig =
      some (encodeAuditlogExtensionConfig (auditlogConfigFor d)) ∧
    (indexFunc (fun e => e.type == auditlogExtensionType) s.extensions = none →
      (oSetExtension d s).extensions = s.extensions ++ [auditlogExt d] ∧
      (oSetExtension d s).extensions.length = s.extensions.length + 1) ∧
    (∀ i, indexFunc (fun e => e.type == auditlogExtensionType) s.extensions =
        some i →
      (oSetExtension d s).extensions = s.extensions.set i (auditlogExt d) ∧
      (oSetExtension d s).extensions.length = s.extensions.length ∧
      (oSetExtension d s).extensions[i]? = some (auditlogExt d) ∧
      ∀ j, j ≠ i → (oSetExtension d s).extensions[j]? = s.extensions[j]?) := by
  refine ⟨?_, rfl, rfl, ?_, ?_⟩
  · unfold oSetExtension
    cases h : indexFunc (fun e => e.type == auditlogExtensionType) s.extensions <;>
      simp [h]
  · intro h
    have hres : (oSetExtension d s).extensions =
        s.extensions ++ [auditlogExt d] := by
      unfold oSetExtension
      simp [h]
    exact ⟨hres, by rw [hres]; simp⟩
  · intro i h
    have hres : (oSetExtension d s).extensions =
        s.extensions.set i (auditlogExt d) := by
      unfold oSetExtension
      simp [h]
    refine ⟨hres, ?_, ?_, ?_⟩
    · rw [hres]
      simp
    · rw [hres]
      exact getElem?_set_self _ _ _ (indexFunc_lt_length _ _ _ h)
    · intro j hj
      rw [hres]
      exact getElem?_set_ne _ _ _ _ hj

/-- Witness for C7 at a concrete shoot holding an auditlog entry at
index 1: the entry is replaced in place. -/
theorem oSetExtension_upsert_witness :
    (oSetExtension auditDataEx shootEx).extensions =
      shootEx.extensions.set 1 (auditlogExt auditDataEx) ∧
    (oSetExtension auditDataEx shootEx).extensions.length = 2 :=
  let h := (oSetExtension_upsert auditDataEx shootEx).2.2.2.2 1 (by decide)
  ⟨h.1, h.2.1⟩

/-- Claim C8: `oSetExtension` is idempotent: a second application with
the same data to the shoot produced by the first leaves the shoot
unchanged. -/
theorem oSetExtension_idempotent (d : AuditLogData) (s : GShoot) :
    oSetExtension d (oSetExtension d s) = oSetExtension d s := by
  have hp : (fun e : GExtension => e.type == auditlogExtensionType)
      (auditlogExt d) = true := by
    simp [auditlogExt]
  unfold oSetExtension
  cases h : indexFunc (fun e => e.type == auditlogExtensionType) s.extensions with
  | none =>
      simp only [h]
      rw [indexFunc_append_none _ _ _ h hp]
      simp [set_append_length]
  | some i =>
      simp only [h]
      rw [indexFunc_set_self _ _ _ _ h hp]
      simp [List.set_set]

end IM
